import Mathlib

/-!
Verification development for the SereneDesk session data model
(src/app.py): the in-memory mood check-in store, journal store,
stress-trigger aggregator, analytics filtering and metrics, the
soundscape recommendation cascade, and the JSON export step.

Python values are embedded shallowly: dictionaries become structures,
Python lists become Lean lists, the dynamically-typed timestamp slot
(which holds a datetime until the export loop overwrites it with a
string) becomes the sum type PyTime, numbers become rationals or
integers, and raised exceptions become Except values.  The wall clock
(datetime.now) is passed in as an explicit integer parameter measured
in seconds.
-/

namespace SereneDesk

/-- Models the value stored in the timestamp slot of an entry.  The code
stores datetime.now() there (constructor dt, an instant in seconds),
but the export loop in settings_page (app.py lines 500-503) overwrites
the slot in place with the isoformat string (constructor iso). -/
inductive PyTime where
  | dt (t : Int)
  | iso (s : String)
deriving DecidableEq

/-- Python exceptions that the embedded fragments can raise. -/
inductive PyError where
  | attributeError
  | typeError
  | valueError
deriving DecidableEq

/-- Models datetime.isoformat abstractly as an injective rendering of
the instant; the concrete ISO-8601 text does not matter, only that it
is a string determined by the instant. -/
def isoString (t : Int) : String := "ISO:" ++ toString t

/-- Models the attribute access value.isoformat() on a timestamp slot:
defined on datetime values, raises AttributeError on a string (which is
what the slot holds after one export has already run). -/
def PyTime.isoformat : PyTime → Except PyError String
  | .dt t => .ok (isoString t)
  | .iso _ => .error .attributeError

/-- Models the pandas comparison of a timestamp column value against a
datetime cutoff (app.py line 232): defined on datetime values, raises
on a string-valued slot. -/
def PyTime.geInt : PyTime → Int → Except PyError Bool
  | .dt t, c => .ok (decide (c ≤ t))
  | .iso _, _ => .error .typeError

/-- Wellness-suggestion record returned by the generator; the three
fields are independently optional (display_analysis_results reads them
with dict.get). -/
structure Suggestions where
  break_suggestion : Option String
  focus_tips : Option String
  journaling_prompt : Option String
deriving DecidableEq

/-- One mood check-in record as built by save_checkin
(app.py lines 196-204). -/
structure CheckinEntry where
  timestamp : PyTime
  transcript : List Char
  mood_score : ℚ
  stress_level : String
  energy_level : String
  wellness_suggestions : Suggestions
deriving DecidableEq

/-- One journal record as built by journal_page
(app.py lines 411-416). -/
structure JournalEntry where
  timestamp : PyTime
  prompt : String
  content : List Char
  word_count : Nat
deriving DecidableEq

/-- The Streamlit session state owned by the app: mood_history,
stress_triggers (a Python dict embedded as an insertion-ordered
association list) and wellness_log (app.py lines 26-31). -/
structure Session where
  mood_history : List CheckinEntry
  stress_triggers : List (String × Nat)
  wellness_log : List JournalEntry
deriving DecidableEq

/-- Fresh session state (all three collections empty). -/
def emptySession : Session := ⟨[], [], []⟩

/-- The classifier result dictionary: every field is read with
dict.get and a default, so each is optional here. -/
structure ClassifierResult where
  mood_score : Option ℚ
  stress_level : Option String
  energy_level : Option String
  stress_triggers : Option (List String)
deriving DecidableEq

/-- Models Python str.strip on a character list: drop whitespace from
both ends. -/
def pyStrip (cs : List Char) : List Char :=
  ((cs.dropWhile Char.isWhitespace).reverse.dropWhile Char.isWhitespace).reverse

/-- Models Python str.split() with no separator: split on runs of
whitespace, producing no empty tokens. -/
def pySplit (cs : List Char) : List (List Char) :=
  match cs with
  | [] => []
  | c :: rest =>
    if c.isWhitespace then pySplit rest
    else (c :: rest.takeWhile (fun x => !x.isWhitespace)) ::
      pySplit (rest.dropWhile (fun x => !x.isWhitespace))
termination_by cs.length
decreasing_by
  · simp only [List.length_cons]
    omega
  · simp only [List.length_cons]
    have h : (rest.dropWhile (fun x => !x.isWhitespace)).length ≤ rest.length :=
      List.Sublist.length_le (List.dropWhile_sublist _)
    omega

/-- One step of the trigger-update loop in save_checkin (app.py lines
209-213): the count of a present tag is incremented, an absent tag is
inserted at 1 at the end (Python dicts preserve insertion order). -/
def incrementTrigger (table : List (String × Nat)) (tag : String) :
    List (String × Nat) :=
  if table.any (fun p => p.1 = tag) then
    table.map (fun p => if p.1 = tag then (p.1, p.2 + 1) else p)
  else
    table ++ [(tag, 1)]

/-- save_checkin (app.py lines 196-213): appends one CheckinEntry with
dict.get defaults 5 / Moderate / Medium for missing classifier fields,
then runs the trigger-update loop over classification.stress_triggers
(default empty list). -/
def save_checkin (s : Session) (now : Int) (transcript : List Char)
    (r : ClassifierResult) (w : Suggestions) : Session :=
  let entry : CheckinEntry :=
    { timestamp := .dt now
      transcript := transcript
      mood_score := r.mood_score.getD 5
      stress_level := r.stress_level.getD "Moderate"
      energy_level := r.energy_level.getD "Medium"
      wellness_suggestions := w }
  { s with
    mood_history := s.mood_history ++ [entry]
    stress_triggers := (r.stress_triggers.getD []).foldl incrementTrigger
      s.stress_triggers }

/-- Observable outcome of one page action: success, a st.warning
branch, or an uncaught Python exception (which Streamlit surfaces as a
crash of the script run, leaving session state as it was). -/
inductive Outcome where
  | ok
  | warned
  | crashed (e : PyError)
deriving DecidableEq

/-- The enhanced_text construction of voice_checkin_page (app.py lines
107-111): the stripped text, plus optional quick-mood and quick-energy
sentences when the selectors are not on the Select... placeholder. -/
def enhancedText (text : List Char) (quickMood energyQuick : String) :
    List Char :=
  let base := pyStrip text
  let base := if quickMood ≠ "Select..." then
      base ++ (" My mood right now is " ++ quickMood ++ ".").toList
    else base
  if energyQuick ≠ "Select..." then
    base ++ (" My energy level is " ++ energyQuick ++ ".").toList
  else base

/-- The submit path of voice_checkin_page (app.py lines 105-138) after
a successful classifier call: the guard "button and text_input.strip()"
saves via save_checkin only when the stripped text is non-empty, and
the elif branch shows a warning and leaves the state untouched. -/
def voice_checkin_submit (s : Session) (now : Int) (text : List Char)
    (quickMood energyQuick : String) (r : ClassifierResult)
    (w : Suggestions) : Session × Outcome :=
  if pyStrip text = [] then (s, .warned)
  else (save_checkin s now (enhancedText text quickMood energyQuick) r w, .ok)

/-- The save path of journal_page (app.py lines 409-421): when the
stripped content is non-empty, one JournalEntry is appended with the
raw content and word_count = len(content.split()); otherwise a warning
is shown and nothing changes. -/
def journal_save_entry (s : Session) (now : Int) (prompt : String)
    (content : List Char) : Session × Outcome :=
  if pyStrip content = [] then (s, .warned)
  else
    let entry : JournalEntry :=
      { timestamp := .dt now
        prompt := prompt
        content := content
        word_count := (pySplit content).length }
    ({ s with wellness_log := s.wellness_log ++ [entry] }, .ok)

/-- Models Python list.remove: removes the first element equal to the
argument, raising ValueError when no element is equal. -/
def pyRemove {α : Type} [DecidableEq α] (l : List α) (x : α) :
    Except PyError (List α) :=
  match l with
  | [] => .error .valueError
  | y :: ys => if y = x then .ok ys else (pyRemove ys x).map (fun t => y :: t)

/-- The delete path of journal_page (app.py lines 457-459):
wellness_log.remove(entry) with no exception handler around it, so a
ValueError from an absent entry propagates as a crash while the
session state keeps its previous value. -/
def journal_delete_entry (s : Session) (x : JournalEntry) :
    Session × Outcome :=
  match pyRemove s.wellness_log x with
  | .ok l => ({ s with wellness_log := l }, .ok)
  | .error e => (s, .crashed e)

/-- The clear-all action of settings_page (app.py lines 513-517):
resets all three collections to empty. -/
def clear_all_data (_s : Session) : Session := emptySession

/-- Maps the timestamp slot of every check-in entry in place to its
isoformat string, as the first export loop does (app.py lines 500-501);
the attribute error of a second run propagates. -/
def exportCheckinLoop : List CheckinEntry → Except PyError (List CheckinEntry)
  | [] => .ok []
  | e :: es => do
    let t ← e.timestamp.isoformat
    let rest ← exportCheckinLoop es
    pure ({ e with timestamp := .iso t } :: rest)

/-- Same in-place isoformat loop over the journal entries (app.py
lines 502-503). -/
def exportJournalLoop : List JournalEntry → Except PyError (List JournalEntry)
  | [] => .ok []
  | e :: es => do
    let t ← e.timestamp.isoformat
    let rest ← exportJournalLoop es
    pure ({ e with timestamp := .iso t } :: rest)

/-- The downloadable snapshot built by the export button: the three
top-level collections of the JSON dump. -/
structure ExportSnapshot where
  mood_history : List CheckinEntry
  wellness_log : List JournalEntry
  stress_triggers : List (String × Nat)
deriving DecidableEq

/-- The export action of settings_page (app.py lines 491-510).  The
export_data dictionary aliases the session lists, and the two loops
replace the timestamp of each entry with its isoformat string in place, so
the returned session is the mutated one and the snapshot shares the
mutated entries.  On a session whose timestamps are already strings the
isoformat call raises AttributeError. -/
def export_data (s : Session) : Except PyError (ExportSnapshot × Session) := do
  let mh ← exportCheckinLoop s.mood_history
  let wl ← exportJournalLoop s.wellness_log
  pure (⟨mh, wl, s.stress_triggers⟩,
    { mood_history := mh, stress_triggers := s.stress_triggers,
      wellness_log := wl })

/-- Time-period filter of analytics_page. -/
inductive Period where
  | last7
  | last30
  | allTime
deriving DecidableEq

/-- One day in seconds (timedelta(days=1)). -/
def secondsPerDay : Int := 86400

/-- The row filter df[df.timestamp >= cutoff] (app.py lines 232 and
235): keeps the rows whose timestamp compares at least the cutoff,
propagating the comparison error of a string-valued slot. -/
def filterGE (cutoff : Int) : List CheckinEntry → Except PyError (List CheckinEntry)
  | [] => .ok []
  | e :: es => do
    let b ← e.timestamp.geInt cutoff
    let rest ← filterGE cutoff es
    pure (if b then e :: rest else rest)

/-- The period dispatch of analytics_page (app.py lines 229-237):
last-7-days and last-30-days filter against now minus the window, the
all-time branch keeps the data frame unchanged. -/
def filterEntries (es : List CheckinEntry) (p : Period) (now : Int) :
    Except PyError (List CheckinEntry) :=
  match p with
  | .last7 => filterGE (now - 7 * secondsPerDay) es
  | .last30 => filterGE (now - 30 * secondsPerDay) es
  | .allTime => .ok es

/-- The four key metrics of analytics_page (app.py lines 244-264):
mean mood score, row count, and the High percentages computed as
(value_counts().get(High, 0) / total) * 100. -/
structure Metrics where
  avg_mood : ℚ
  total_checkins : Nat
  stress_percentage : ℚ
  energy_percentage : ℚ
deriving DecidableEq

/-- Computes the metric block of analytics_page on the filtered rows;
only ever evaluated on a non-empty frame because of the early return
on df_filtered.empty. -/
def computeMetrics (f : List CheckinEntry) : Metrics :=
  { avg_mood := (f.map (fun e => e.mood_score)).sum / (f.length : ℚ)
    total_checkins := f.length
    stress_percentage :=
      ((f.countP (fun e => e.stress_level = "High") : ℚ) / (f.length : ℚ)) * 100
    energy_percentage :=
      ((f.countP (fun e => e.energy_level = "High") : ℚ) / (f.length : ℚ)) * 100 }

/-- The analytics pipeline of analytics_page (app.py lines 218-264):
filter by period, return early with no metrics when the filtered frame
is empty (this also covers the empty-history early return at line 218),
otherwise compute the metric block. -/
def analytics_summary (es : List CheckinEntry) (p : Period) (now : Int) :
    Except PyError (Option Metrics) := do
  let f ← filterEntries es p now
  if f.isEmpty then pure none else pure (some (computeMetrics f))

/-- Soundscape suggestions of the recommendation block. -/
inductive Soundscape where
  | rainThunder
  | oceanWaves
  | coffeeShop
  | forestAmbience
deriving DecidableEq

/-- The recommendation cascade of soundscapes_page (app.py lines
361-368), evaluated on the latest check-in entry. -/
def recommend (e : CheckinEntry) : Soundscape :=
  if e.stress_level = "High" then .rainThunder
  else if e.mood_score < 5 then .oceanWaves
  else if e.stress_level = "Low" then .coffeeShop
  else .forestAmbience

/-- The recommendation block reads mood_history[-1] when the history
is non-empty (app.py lines 356-368). -/
def latest_recommendation (s : Session) : Option Soundscape :=
  s.mood_history.getLast?.map recommend

/-- Pure characterisation of the row comparison used by filterGE on an
entry whose timestamp slot still holds a datetime: true exactly when
the instant is at least the cutoff. -/
def dtGE (cutoff : Int) (e : CheckinEntry) : Bool :=
  match e.timestamp with
  | .dt t => decide (cutoff ≤ t)
  | .iso _ => false

/-- A suggestion record with no populated field. -/
def noSuggestions : Suggestions := ⟨none, none, none⟩

/-- A classifier result with every field present. -/
def mkClassifier (m : ℚ) (stress energy : String) (tags : List String) :
    ClassifierResult :=
  ⟨some m, some stress, some energy, some tags⟩

/-- Malformed classifier output: mood score far outside [0, 10] and
category labels outside the documented vocabularies. -/
def badClassifier : ClassifierResult :=
  ⟨some 15, some "Extreme", some "Ultra", some []⟩

/-- Session holding the three check-ins of the analytics scenario:
mood scores 8, 3, 6 with stress levels Low, High, Moderate. -/
def scenarioSession : Session :=
  save_checkin
    (save_checkin
      (save_checkin emptySession 0 "day one".toList
        (mkClassifier 8 "Low" "Medium" []) noSuggestions)
      1 "day two".toList (mkClassifier 3 "High" "Medium" []) noSuggestions)
    2 "day three".toList (mkClassifier 6 "Moderate" "Medium" []) noSuggestions

/-- A session with one check-in and one journal entry, both with
datetime timestamps, as any freshly recorded data has. -/
def c1Session : Session :=
  { mood_history :=
      [⟨.dt 0, "tough day".toList, 4, "High", "Low", noSuggestions⟩]
    stress_triggers := [("deadline", 1)]
    wellness_log := [⟨.dt 1, "Free writing", "hello".toList, 1⟩] }

/-- The state the export button leaves behind when pressed on
c1Session: both timestamp slots now hold isoformat strings. -/
def c1Mutated : Session :=
  { mood_history :=
      [⟨.iso (isoString 0), "tough day".toList, 4, "High", "Low", noSuggestions⟩]
    stress_triggers := [("deadline", 1)]
    wellness_log := [⟨.iso (isoString 1), "Free writing", "hello".toList, 1⟩] }

/-- Invariant of the journal collection: every stored entry has at
least one word and non-blank content. -/
def JournalWellFormed (l : List JournalEntry) : Prop :=
  ∀ e ∈ l, 1 ≤ e.word_count ∧ pyStrip e.content ≠ []

/-- Session states reachable from the fresh session through the page
actions embedded above: check-in submits, journal saves, journal
deletes, clear-all, and successful exports. -/
inductive ReachableSession : Session → Prop where
  | start : ReachableSession emptySession
  | checkin (s : Session) (now : Int) (text : List Char)
      (quickMood energyQuick : String) (r : ClassifierResult)
      (w : Suggestions) : ReachableSession s →
      ReachableSession (voice_checkin_submit s now text quickMood energyQuick r w).1
  | journal (s : Session) (now : Int) (p : String) (c : List Char) :
      ReachableSession s → ReachableSession (journal_save_entry s now p c).1
  | deleteEntry (s : Session) (x : JournalEntry) :
      ReachableSession s → ReachableSession (journal_delete_entry s x).1
  | clear (s : Session) : ReachableSession s →
      ReachableSession (clear_all_data s)
  | exported (s s1 : Session) (snap : ExportSnapshot) :
      ReachableSession s → export_data s = .ok (snap, s1) →
      ReachableSession s1

/-! Helper lemmas shared by the claim theorems. -/

theorem pyRemove_of_mem {α : Type} [DecidableEq α] {l : List α} {x : α}
    (h : x ∈ l) :
    ∃ l1 l2, l = l1 ++ x :: l2 ∧ x ∉ l1 ∧ pyRemove l x = .ok (l1 ++ l2) := by
  induction l with
  | nil => cases h
  | cons y ys ih =>
    by_cases hy : y = x
    · subst hy
      exact ⟨[], ys, rfl, by simp, by simp [pyRemove]⟩
    · have hx : x ∈ ys := by
        cases h with
        | head => exact absurd rfl hy
        | tail _ h2 => exact h2
      obtain ⟨l1, l2, heq, hnot, hrem⟩ := ih hx
      refine ⟨y :: l1, l2, by simp [heq], ?_, ?_⟩
      · intro hmem
        rcases List.mem_cons.mp hmem with h1 | h1
        · exact hy h1.symm
        · exact hnot h1
      · simp [pyRemove, hy, hrem, Except.map]

theorem pyRemove_of_not_mem {α : Type} [DecidableEq α] {l : List α} {x : α}
    (h : x ∉ l) : pyRemove l x = .error .valueError := by
  induction l with
  | nil => rfl
  | cons y ys ih =>
    have hy : ¬ y = x := by
      intro e
      exact h (by rw [← e]; exact List.mem_cons_self y ys)
    have hx : x ∉ ys := fun m => h (List.mem_cons_of_mem y m)
    simp [pyRemove, hy, ih hx, Except.map]

theorem pyRemove_subset {α : Type} [DecidableEq α] {l t : List α} {x : α}
    (h : pyRemove l x = .ok t) : ∀ y ∈ t, y ∈ l := by
  induction l generalizing t with
  | nil => simp [pyRemove] at h
  | cons a as ih =>
    by_cases ha : a = x
    · rw [pyRemove, if_pos ha] at h
      cases h
      exact fun y hy => List.mem_cons_of_mem _ hy
    · cases hr : pyRemove as x with
      | error e => rw [pyRemove, if_neg ha, hr] at h; cases h
      | ok t2 =>
        rw [pyRemove, if_neg ha, hr] at h
        cases h
        intro y hy
        rcases List.mem_cons.mp hy with rfl | hy2
        · exact List.mem_cons_self _ _
        · exact List.mem_cons_of_mem _ (ih hr y hy2)

theorem all_ws_of_pySplit_eq_nil :
    ∀ cs : List Char, pySplit cs = [] → ∀ c ∈ cs, c.isWhitespace := by
  intro cs
  induction cs using pySplit.induct with
  | case1 => intro _ c hc; cases hc
  | case2 c rest hws ih =>
    intro h d hd
    rw [pySplit, if_pos hws] at h
    rcases List.mem_cons.mp hd with rfl | hd2
    · exact hws
    · exact ih h d hd2
  | case3 c rest hws ih =>
    intro h
    rw [pySplit, if_neg hws] at h
    cases h

theorem pyStrip_eq_nil_of_all_ws (cs : List Char)
    (h : ∀ c ∈ cs, c.isWhitespace) : pyStrip cs = [] := by
  have h1 : cs.dropWhile Char.isWhitespace = [] :=
    List.dropWhile_eq_nil_iff.mpr h
  simp [pyStrip, h1]

theorem pySplit_ne_nil_of_strip_ne_nil {cs : List Char}
    (h : pyStrip cs ≠ []) : pySplit cs ≠ [] := fun hsplit =>
  h (pyStrip_eq_nil_of_all_ws cs (all_ws_of_pySplit_eq_nil cs hsplit))

theorem exportJournalLoop_preserves {l t : List JournalEntry}
    (h : exportJournalLoop l = .ok t) :
    ∀ e ∈ t, ∃ e0 ∈ l, e.content = e0.content ∧ e.word_count = e0.word_count := by
  induction l generalizing t with
  | nil =>
    rw [exportJournalLoop] at h
    cases h
    simp
  | cons a as ih =>
    cases hts : a.timestamp.isoformat with
    | error e => rw [exportJournalLoop] at h; rw [hts] at h; cases h
    | ok s =>
      cases hrest : exportJournalLoop as with
      | error e =>
        rw [exportJournalLoop] at h
        rw [hts, hrest] at h
        cases h
      | ok t2 =>
        rw [exportJournalLoop] at h
        rw [hts, hrest] at h
        cases h
        intro e he
        rcases List.mem_cons.mp he with rfl | he2
        · exact ⟨a, List.mem_cons_self _ _, rfl, rfl⟩
        · obtain ⟨e0, he0, hc, hw⟩ := ih hrest e he2
          exact ⟨e0, List.mem_cons_of_mem _ he0, hc, hw⟩

theorem voice_checkin_wellness_log (s : Session) (now : Int)
    (text : List Char) (quickMood energyQuick : String)
    (r : ClassifierResult) (w : Suggestions) :
    (voice_checkin_submit s now text quickMood energyQuick r w).1.wellness_log =
      s.wellness_log := by
  unfold voice_checkin_submit save_checkin
  split <;> rfl

theorem filterGE_all_dt (cutoff : Int) :
    ∀ es : List CheckinEntry, (∀ e ∈ es, ∃ t, e.timestamp = .dt t) →
      filterGE cutoff es = .ok (es.filter (dtGE cutoff))
  | [], _ => rfl
  | a :: as, h => by
    obtain ⟨t, ht⟩ := h a (List.mem_cons_self a as)
    have hrest := filterGE_all_dt cutoff as
      (fun e he => h e (List.mem_cons_of_mem a he))
    rw [filterGE, ht]
    simp only [PyTime.geInt, hrest, List.filter_cons, dtGE, ht]
    by_cases hc : cutoff ≤ t <;> simp [hc] <;> rfl

theorem export_data_journal {s s1 : Session} {snap : ExportSnapshot}
    (h : export_data s = .ok (snap, s1)) :
    exportJournalLoop s.wellness_log = .ok s1.wellness_log := by
  unfold export_data at h
  cases hm : exportCheckinLoop s.mood_history with
  | error e =>
    rw [hm] at h
    have h2 : (Except.error e : Except PyError (ExportSnapshot × Session)) =
        .ok (snap, s1) := h
    cases h2
  | ok mh =>
    rw [hm] at h
    cases hw : exportJournalLoop s.wellness_log with
    | error e =>
      rw [hw] at h
      have h2 : (Except.error e : Except PyError (ExportSnapshot × Session)) =
          .ok (snap, s1) := h
      cases h2
    | ok wl =>
      rw [hw] at h
      have h2 : (Except.ok (⟨⟨mh, wl, s.stress_triggers⟩,
          { mood_history := mh, stress_triggers := s.stress_triggers,
            wellness_log := wl }⟩) :
          Except PyError (ExportSnapshot × Session)) = .ok (snap, s1) := h
      have h3 := Except.ok.inj h2
      injection h3 with h4 h5
      rw [← h5]

/-! Claim theorems. -/

/-- C4: the soundscape recommendation is a fixed priority cascade on
the latest check-in entry: High stress yields the stress-relief
suggestion (Rain and Thunder) regardless of mood, else mood below 5
yields the mood-boost suggestion (Ocean Waves), else Low stress yields
the productivity suggestion (Coffee Shop), else the balance suggestion
(Forest Ambience); in particular High stress with mood 9 yields the
stress-relief suggestion. -/
theorem recommend_cascade :
    (∀ e : CheckinEntry, e.stress_level = "High" →
      recommend e = .rainThunder) ∧
    (∀ e : CheckinEntry, e.stress_level ≠ "High" → e.mood_score < 5 →
      recommend e = .oceanWaves) ∧
    (∀ e : CheckinEntry, e.stress_level ≠ "High" → ¬ e.mood_score < 5 →
      e.stress_level = "Low" → recommend e = .coffeeShop) ∧
    (∀ e : CheckinEntry, e.stress_level ≠ "High" → ¬ e.mood_score < 5 →
      e.stress_level ≠ "Low" → recommend e = .forestAmbience) ∧
    (∀ e : CheckinEntry, e.stress_level = "High" → e.mood_score = 9 →
      recommend e = .rainThunder) := by
  refine ⟨?_, ?_, ?_, ?_, ?_⟩ <;> intro e <;> intros <;> simp_all [recommend]

/-- Witness for recommend_cascade: a High-stress entry with the good
mood score 9 still receives the stress-relief suggestion, and a
Moderate-stress entry with mood 3 receives the mood-boost one. -/
theorem recommend_cascade_witness :
    recommend ⟨.dt 0, [], 9, "High", "Medium", noSuggestions⟩ = .rainThunder ∧
    recommend ⟨.dt 0, [], 3, "Moderate", "Medium", noSuggestions⟩ = .oceanWaves :=
  ⟨recommend_cascade.2.2.2.2 ⟨.dt 0, [], 9, "High", "Medium", noSuggestions⟩
      (by decide) (by decide),
   recommend_cascade.2.1 ⟨.dt 0, [], 3, "Moderate", "Medium", noSuggestions⟩
      (by decide) (by decide)⟩

/-- C8: a blank (empty or whitespace-only) check-in transcript or
journal content is always rejected with the validation warning and the
whole session state, trigger table included, is unchanged; any
non-blank input appends exactly one entry to its collection on a
successful call. -/
theorem blank_inputs_rejected :
    (∀ (s : Session) (now : Int) (text : List Char) (qm qe : String)
      (r : ClassifierResult) (w : Suggestions), pyStrip text = [] →
      voice_checkin_submit s now text qm qe r w = (s, .warned)) ∧
    (∀ (s : Session) (now : Int) (text : List Char) (qm qe : String)
      (r : ClassifierResult) (w : Suggestions), pyStrip text ≠ [] →
      (voice_checkin_submit s now text qm qe r w).2 = .ok ∧
      (voice_checkin_submit s now text qm qe r w).1.mood_history.length =
        s.mood_history.length + 1 ∧
      (voice_checkin_submit s now text qm qe r w).1.wellness_log =
        s.wellness_log) ∧
    (∀ (s : Session) (now : Int) (p : String) (c : List Char),
      pyStrip c = [] → journal_save_entry s now p c = (s, .warned)) ∧
    (∀ (s : Session) (now : Int) (p : String) (c : List Char),
      pyStrip c ≠ [] →
      (journal_save_entry s now p c).2 = .ok ∧
      (journal_save_entry s now p c).1.wellness_log.length =
        s.wellness_log.length + 1 ∧
      (journal_save_entry s now p c).1.mood_history = s.mood_history) := by
  refine ⟨?_, ?_, ?_, ?_⟩
  · intro s now text qm qe r w h
    simp [voice_checkin_submit, h]
  · intro s now text qm qe r w h
    simp [voice_checkin_submit, h, save_checkin]
  · intro s now p c h
    simp [journal_save_entry, h]
  · intro s now p c h
    simp [journal_save_entry, h]

/-- Witness for blank_inputs_rejected: a whitespace-only check-in is
rejected without mutation, and a real journal entry is appended. -/
theorem blank_inputs_rejected_witness :
    voice_checkin_submit emptySession 0 "   ".toList "Select..." "Select..."
      (mkClassifier 7 "Low" "High" []) noSuggestions = (emptySession, .warned) ∧
    (journal_save_entry emptySession 0 "Free writing"
      "hello world".toList).1.wellness_log.length = 1 := by
  constructor
  · exact blank_inputs_rejected.1 emptySession 0 "   ".toList "Select..."
      "Select..." (mkClassifier 7 "Low" "High" []) noSuggestions (by decide)
  · have h := blank_inputs_rejected.2.2.2 emptySession 0 "Free writing"
      "hello world".toList (by decide)
    simpa using h.2.1

/-- C2 fails on the code: save_checkin stores the present mood score
15 and the unknown labels Extreme and Ultra verbatim; nothing is
clamped into [0, 10] and no label is coerced to Moderate or Medium. -/
theorem save_checkin_no_clamping :
    ((save_checkin emptySession 0 "overwhelmed".toList badClassifier
        noSuggestions).mood_history.map
      (fun e => (e.mood_score, e.stress_level, e.energy_level))) =
      [(15, "Extreme", "Ultra")] ∧
    ¬ ((15 : ℚ) ≤ 10) ∧
    "Extreme" ∉ ["Low", "Moderate", "High"] ∧
    "Ultra" ∉ ["Low", "Medium", "High"] := by decide

/-- C2 amended: save_checkin substitutes the defaults 5, Moderate and
Medium only when the corresponding classifier field is missing;
present values, including out-of-range mood scores and unknown labels,
are stored verbatim, and malformed classifier output is never
propagated as an error: the operation is total and always appends
exactly one entry, leaving the journal untouched. -/
theorem save_checkin_defaults :
    ∀ (s : Session) (now : Int) (tr : List Char) (r : ClassifierResult)
      (w : Suggestions),
      (save_checkin s now tr r w).mood_history =
        s.mood_history ++
          [⟨.dt now, tr, r.mood_score.getD 5, r.stress_level.getD "Moderate",
            r.energy_level.getD "Medium", w⟩] ∧
      (save_checkin s now tr r w).wellness_log = s.wellness_log :=
  fun _ _ _ _ _ => ⟨rfl, rfl⟩

/-- C9 fails on the code as stated: deleting an entry that is absent
from the journal raises an uncaught ValueError (list.remove has no
handler in journal_page), which is a crash, not a NotFoundError
surfaced as a safe no-op warning. -/
theorem journal_delete_absent_crashes :
    journal_delete_entry emptySession ⟨.dt 0, "Free writing", "hi".toList, 1⟩ =
      (emptySession, .crashed .valueError) ∧
    (Outcome.crashed .valueError ≠ .warned) ∧
    (Outcome.crashed .valueError ≠ .ok) := by decide

/-- C9 amended: journal deletion removes exactly the first stored
entry equal to the reference, leaving all other journal entries and
the other two collections unchanged; when the reference is absent the
state is unchanged but the operation raises an uncaught ValueError (a
crash) instead of reporting a handled NotFoundError no-op. -/
theorem journal_delete_spec :
    (∀ (s : Session) (x : JournalEntry), x ∈ s.wellness_log →
      ∃ l1 l2, s.wellness_log = l1 ++ x :: l2 ∧ x ∉ l1 ∧
        journal_delete_entry s x =
          ({ s with wellness_log := l1 ++ l2 }, .ok)) ∧
    (∀ (s : Session) (x : JournalEntry), x ∉ s.wellness_log →
      journal_delete_entry s x = (s, .crashed .valueError)) ∧
    (∀ (s : Session) (x : JournalEntry),
      (journal_delete_entry s x).1.mood_history = s.mood_history ∧
      (journal_delete_entry s x).1.stress_triggers = s.stress_triggers) := by
  refine ⟨?_, ?_, ?_⟩
  · intro s x hx
    obtain ⟨l1, l2, heq, hnot, hrem⟩ := pyRemove_of_mem hx
    exact ⟨l1, l2, heq, hnot, by simp [journal_delete_entry, hrem]⟩
  · intro s x hx
    simp [journal_delete_entry, pyRemove_of_not_mem hx]
  · intro s x
    cases h : pyRemove s.wellness_log x <;>
      simp [journal_delete_entry, h]

/-- Witness for journal_delete_spec: deleting a non-stored entry from
the one-entry session leaves it unchanged and crashes. -/
theorem journal_delete_spec_witness :
    journal_delete_entry c1Session ⟨.dt 5, "Free writing", "bye".toList, 1⟩ =
      (c1Session, .crashed .valueError) :=
  journal_delete_spec.2.1 c1Session ⟨.dt 5, "Free writing", "bye".toList, 1⟩
    (by decide)

/-- C5: the all-time window filters nothing; on entries whose
timestamp slots hold datetimes the 7-day and 30-day windows keep
exactly the rows whose timestamp is at least now minus the window
duration, a closed lower bound: a timestamp exactly at now minus 7
days passes the 7-day filter and one a second earlier does not. -/
theorem window_filter_spec :
    (∀ (es : List CheckinEntry) (now : Int),
      filterEntries es .allTime now = .ok es) ∧
    (∀ (es : List CheckinEntry) (now : Int),
      (∀ e ∈ es, ∃ t, e.timestamp = .dt t) →
      filterEntries es .last7 now =
        .ok (es.filter (dtGE (now - 7 * secondsPerDay)))) ∧
    (∀ (es : List CheckinEntry) (now : Int),
      (∀ e ∈ es, ∃ t, e.timestamp = .dt t) →
      filterEntries es .last30 now =
        .ok (es.filter (dtGE (now - 30 * secondsPerDay)))) ∧
    (∀ (e : CheckinEntry) (now : Int),
      e.timestamp = .dt (now - 7 * secondsPerDay) →
      dtGE (now - 7 * secondsPerDay) e = true) ∧
    (∀ (e : CheckinEntry) (now : Int),
      e.timestamp = .dt (now - 7 * secondsPerDay - 1) →
      dtGE (now - 7 * secondsPerDay) e = false) := by
  refine ⟨?_, ?_, ?_, ?_, ?_⟩
  · intro es now
    rfl
  · intro es now h
    exact filterGE_all_dt _ es h
  · intro es now h
    exact filterGE_all_dt _ es h
  · intro e now h
    simp [dtGE, h]
  · intro e now h
    simp only [dtGE, h, decide_eq_false_iff_not]
    omega

/-- Witness for window_filter_spec: with now at 1000000 the boundary
entry is kept and the one-second-older entry is dropped. -/
theorem window_filter_spec_witness :
    filterEntries
      [⟨.dt (1000000 - 7 * secondsPerDay), [], 5, "Moderate", "Medium",
          noSuggestions⟩,
        ⟨.dt (1000000 - 7 * secondsPerDay - 1), [], 5, "Moderate", "Medium",
          noSuggestions⟩]
      .last7 1000000 =
      .ok [⟨.dt (1000000 - 7 * secondsPerDay), [], 5, "Moderate", "Medium",
        noSuggestions⟩] := by
  have h := window_filter_spec.2.1
    [⟨.dt (1000000 - 7 * secondsPerDay), [], 5, "Moderate", "Medium",
        noSuggestions⟩,
      ⟨.dt (1000000 - 7 * secondsPerDay - 1), [], 5, "Moderate", "Medium",
        noSuggestions⟩]
    1000000
    (by
      intro e he
      rcases List.mem_cons.mp he with rfl | he2
      · exact ⟨1000000 - 7 * secondsPerDay, rfl⟩
      · have he3 := List.mem_singleton.mp he2
        subst he3
        exact ⟨1000000 - 7 * secondsPerDay - 1, rfl⟩)
  rw [h]
  rfl

/-- C7: when the filtered set is empty the analytics pipeline produces
no metric block at all (count 0, no average), and the percentage
divisions are structurally unreachable: every produced Metrics record
comes from a non-empty filtered list and has a positive count. -/
theorem analytics_empty_guard :
    (∀ (es : List CheckinEntry) (p : Period) (now : Int),
      filterEntries es p now = .ok [] →
      analytics_summary es p now = .ok none) ∧
    (∀ (es : List CheckinEntry) (p : Period) (now : Int) (m : Metrics),
      analytics_summary es p now = .ok (some m) →
      ∃ f, filterEntries es p now = .ok f ∧ f ≠ [] ∧
        m = computeMetrics f ∧ 0 < m.total_checkins) := by
  constructor
  · intro es p now h
    unfold analytics_summary
    rw [h]
    rfl
  · intro es p now m h
    unfold analytics_summary at h
    cases hf : filterEntries es p now with
    | error e =>
      rw [hf] at h
      have h2 : (Except.error e : Except PyError (Option Metrics)) =
          .ok (some m) := h
      cases h2
    | ok f =>
      rw [hf] at h
      cases f with
      | nil =>
        have h2 : (Except.ok none : Except PyError (Option Metrics)) =
            .ok (some m) := h
        simp at h2
      | cons a as =>
        have h2 : (Except.ok (some (computeMetrics (a :: as))) :
            Except PyError (Option Metrics)) = .ok (some m) := h
        have hm : m = computeMetrics (a :: as) := by
          have h3 := Except.ok.inj h2
          exact (Option.some.inj h3).symm
        refine ⟨a :: as, rfl, by simp, hm, ?_⟩
        rw [hm]
        simp [computeMetrics]

/-- Witness for analytics_empty_guard: the all-time summary of an
empty history has no metric block. -/
theorem analytics_empty_guard_witness :
    analytics_summary [] .allTime 0 = .ok none :=
  analytics_empty_guard.1 [] .allTime 0 rfl

/-- C6: on a non-empty filtered set the analytics metrics are the
entry count, the arithmetic mean of the mood scores, and the High
stress and energy percentages equal to 100 times the High count over
the total count; for the scenario session (moods 8, 3, 6 with stress
Low, High, Moderate) the all-time summary has count 3, average mood
within 0.01 of 5.67 and High-stress percentage within 0.1 of 33.3. -/
theorem analytics_metrics_spec :
    (∀ (es : List CheckinEntry) (p : Period) (now : Int)
      (f : List CheckinEntry), filterEntries es p now = .ok f → f ≠ [] →
      analytics_summary es p now = .ok (some (computeMetrics f)) ∧
      (computeMetrics f).total_checkins = f.length ∧
      (computeMetrics f).avg_mood =
        (f.map (fun e => e.mood_score)).sum / (f.length : ℚ) ∧
      (computeMetrics f).stress_percentage =
        100 * ((f.countP (fun e => e.stress_level = "High") : ℚ)) /
          (f.length : ℚ) ∧
      (computeMetrics f).energy_percentage =
        100 * ((f.countP (fun e => e.energy_level = "High") : ℚ)) /
          (f.length : ℚ)) ∧
    (∃ m : Metrics,
      analytics_summary scenarioSession.mood_history .allTime 100 =
        .ok (some m) ∧
      m.total_checkins = 3 ∧
      |m.avg_mood - 567 / 100| ≤ 1 / 100 ∧
      |m.stress_percentage - 333 / 10| ≤ 1 / 10) := by
  constructor
  · intro es p now f hf hne
    refine ⟨?_, rfl, rfl, ?_, ?_⟩
    · cases f with
      | nil => exact absurd rfl hne
      | cons a as =>
        unfold analytics_summary
        rw [hf]
        rfl
    · simp only [computeMetrics]
      ring
    · simp only [computeMetrics]
      ring
  · have hmh : scenarioSession.mood_history =
        [⟨.dt 0, "day one".toList, 8, "Low", "Medium", noSuggestions⟩,
          ⟨.dt 1, "day two".toList, 3, "High", "Medium", noSuggestions⟩,
          ⟨.dt 2, "day three".toList, 6, "Moderate", "Medium", noSuggestions⟩] :=
      rfl
    refine ⟨computeMetrics scenarioSession.mood_history, rfl, rfl, ?_, ?_⟩
    · have h1 : (computeMetrics scenarioSession.mood_history).avg_mood =
          17 / 3 := by
        rw [hmh]
        norm_num [computeMetrics]
      rw [h1, abs_le]
      constructor <;> norm_num
    · have h1 : (computeMetrics scenarioSession.mood_history).stress_percentage =
          100 / 3 := by
        rw [hmh]
        have hc : List.countP (fun e => e.stress_level = "High")
            ([⟨.dt 0, ['d', 'a', 'y', ' ', 'o', 'n', 'e'], 8, "Low", "Medium",
                noSuggestions⟩,
              ⟨.dt 1, ['d', 'a', 'y', ' ', 't', 'w', 'o'], 3, "High", "Medium",
                noSuggestions⟩,
              ⟨.dt 2, ['d', 'a', 'y', ' ', 't', 'h', 'r', 'e', 'e'], 6,
                "Moderate", "Medium", noSuggestions⟩] : List CheckinEntry) =
            1 := by decide
        norm_num [computeMetrics, hc]
      rw [h1, abs_le]
      constructor <;> norm_num

/-- Witness for analytics_metrics_spec: the all-time summary of the
one-entry session carries its computed metric block. -/
theorem analytics_metrics_spec_witness :
    analytics_summary c1Session.mood_history .allTime 0 =
      .ok (some (computeMetrics c1Session.mood_history)) :=
  (analytics_metrics_spec.1 c1Session.mood_history .allTime 0
    c1Session.mood_history rfl (by decide)).1

/-- C1 shows a defect in the code: the export button mutates the
session in place (the export_data dictionary aliases the session
lists, and the serialisation loops overwrite the timestamp slot of
each entry with its isoformat string), so the stored entries lose
their datetime timestamps after one export and a second export raises
AttributeError instead of returning an identical snapshot. -/
theorem export_mutates_state_bug :
    export_data c1Session =
      .ok (⟨c1Mutated.mood_history, c1Mutated.wellness_log,
        c1Mutated.stress_triggers⟩, c1Mutated) ∧
    c1Mutated ≠ c1Session ∧
    c1Mutated.mood_history.map (fun e => e.timestamp) =
      [PyTime.iso (isoString 0)] ∧
    export_data c1Mutated = .error .attributeError := by
  refine ⟨rfl, ?_, rfl, rfl⟩
  decide

/-- C10: every session state reachable through the page actions keeps
the journal invariant: each stored entry has word_count at least 1 and
non-blank content, because blank content is rejected before an entry
is built and word_count is the length of the whitespace split of a
non-blank text, which is never zero. -/
theorem journal_log_invariant :
    ∀ s : Session, ReachableSession s → JournalWellFormed s.wellness_log := by
  intro s h
  induction h with
  | start => intro e he; cases he
  | checkin s now text qm qe r w _ ih =>
    rw [voice_checkin_wellness_log]
    exact ih
  | journal s now p c _ ih =>
    by_cases hb : pyStrip c = []
    · have hs : (journal_save_entry s now p c).1 = s := by
        simp [journal_save_entry, hb]
      rw [hs]
      exact ih
    · have hs : (journal_save_entry s now p c).1.wellness_log =
          s.wellness_log ++ [⟨.dt now, p, c, (pySplit c).length⟩] := by
        simp [journal_save_entry, hb]
      rw [hs]
      intro e he
      rcases List.mem_append.mp he with he1 | he2
      · exact ih e he1
      · have he3 : e = ⟨.dt now, p, c, (pySplit c).length⟩ :=
          List.mem_singleton.mp he2
        subst he3
        refine ⟨?_, hb⟩
        have hs2 := pySplit_ne_nil_of_strip_ne_nil hb
        have hpos : 0 < (pySplit c).length := List.length_pos.mpr hs2
        show 1 ≤ (pySplit c).length
        omega
  | deleteEntry s x _ ih =>
    cases hr : pyRemove s.wellness_log x with
    | ok l =>
      have hs : (journal_delete_entry s x).1.wellness_log = l := by
        simp [journal_delete_entry, hr]
      rw [hs]
      intro e he
      exact ih e (pyRemove_subset hr e he)
    | error err =>
      have hs : (journal_delete_entry s x).1 = s := by
        simp [journal_delete_entry, hr]
      rw [hs]
      exact ih
  | clear s _ _ =>
    intro e he
    cases he
  | exported s s1 snap _ hexp ih =>
    have hw := export_data_journal hexp
    intro e he
    obtain ⟨e0, he0, hc, hwc⟩ := exportJournalLoop_preserves hw e he
    obtain ⟨h1, h2⟩ := ih e0 he0
    constructor
    · rw [hwc]
      exact h1
    · rw [hc]
      exact h2

/-- Witness for journal_log_invariant: the session reached by saving
one real journal entry from the fresh session satisfies the journal
invariant. -/
theorem journal_log_invariant_witness :
    JournalWellFormed
      (journal_save_entry emptySession 0 "Free writing"
        "hello world".toList).1.wellness_log :=
  journal_log_invariant
    (journal_save_entry emptySession 0 "Free writing" "hello world".toList).1
    (ReachableSession.journal emptySession 0 "Free writing"
      "hello world".toList ReachableSession.start)

end SereneDesk
